import Mathlib

/-!
Shallow embedding of `src/music2json.ts` (music2json): a scanner that walks a
music library (artist → album → track files), probes each audio file for
metadata, and aggregates the results into artists/albums/tracks plus a list of
processing errors.

External collaborators (node `fs`, `music-metadata`'s `parseFile`, `node:path`)
are modelled by an abstract filesystem record `FS` of total Lean functions
returning `Except`: `readdir` for directory listing (can fail, like a thrown
`fs.readdir` error), `probe` for metadata extraction (can fail, like a thrown
`parseFile` error), `stat` for `fs.stat` (can fail when the path does not
exist).  `path.join` is modelled on plain relative segments (no
normalisation), which is all the program ever feeds it.

Concurrency note: within one batch of 10 files the JS code probes files
concurrently (`batch.map(async ...)` + `Promise.all`).  `Promise.all` returns
results in submission index order, so the per-batch track list is
deterministic; we model the whole batch as a left fold over the batch in
submission order (a linearisation of the concurrent execution).  The
side-effect order inside a batch (genre-set insertions, error pushes) is the
only thing that can differ between linearisations, and every theorem below
about genres or errors is stated up to set/count, which is insensitive to it.
-/

/-- Kind of a directory entry, as classified by node `Dirent`
(`isFile()` / `isDirectory()`; sockets, symlinks etc. are neither). -/
inductive EntryKind where
  | file
  | directory
  | other
deriving DecidableEq

/-- One entry of a directory listing (`fs.readdir(p, { withFileTypes: true })`). -/
structure DirEntry where
  name : String
  kind : EntryKind
deriving DecidableEq

def DirEntry.isFile (e : DirEntry) : Bool := e.kind = EntryKind.file

def DirEntry.isDirectory (e : DirEntry) : Bool := e.kind = EntryKind.directory

/-- Result of a successful `parseFile` probe: the `common.title` and
`common.genre` fields, both optional in `music-metadata`. -/
structure ProbeResult where
  title : Option String
  genre : Option (List String)
deriving DecidableEq

/-- `fs.stat` result; only `isDirectory()` is consulted by the program. -/
structure FileStat where
  isDirectory : Bool
deriving DecidableEq

/-- Abstract filesystem + metadata decoder: the external collaborators of the
scanner.  A `.error` value models a thrown exception carrying that message. -/
structure FS where
  readdir : String → Except String (List DirEntry)
  probe : String → Except String ProbeResult
  stat : String → Except String FileStat

/-- `path.join(a, b)` on the plain relative segments the program uses
(no `.`/`..` normalisation is exercised). -/
def pathJoin (a b : String) : String := a ++ "/" ++ b

/-- The basename of a path: the characters after the last `'/'`. -/
def basenameChars (cs : List Char) : List Char :=
  (cs.reverse.takeWhile (fun c => c ≠ '/')).reverse

/-- `path.extname`: the extension of the basename, from its last dot to the
end; empty when there is no dot or the only dot is the leading character
(dotfiles have no extension).  Faithful to node for the ordinary names the
program feeds it. -/
def extname (p : String) : String :=
  let base := basenameChars p.toList
  let afterRev := base.reverse.takeWhile (fun c => c ≠ '.')
  if afterRev.length = base.length then ""
  else if afterRev.length + 1 = base.length then ""
  else String.mk ('.' :: afterRev.reverse)

/-- ASCII lowercasing, as `String.prototype.toLowerCase` acts on the ASCII
extension names the program compares. -/
def lowerAscii (s : String) : String :=
  String.mk (s.toList.map (fun c =>
    if 'A' ≤ c ∧ c ≤ 'Z' then Char.ofNat (c.toNat + 32) else c))

/-- `SUPPORTED_FILE_TYPES` from the source. -/
def SUPPORTED_FILE_TYPES : List String :=
  [".m4a", ".aac", ".mp4", ".mp3", ".flac", ".ogg"]

/-- The filter applied to album directory entries:
`file.isFile() && SUPPORTED_FILE_TYPES.includes(extname(file.name).toLowerCase())`. -/
def isSupportedFile (e : DirEntry) : Bool :=
  e.isFile && SUPPORTED_FILE_TYPES.contains (lowerAscii (extname e.name))

/-- `Track` from the source. -/
structure Track where
  title : String
deriving DecidableEq

/-- `Album` from the source. -/
structure Album where
  albumTitle : String
  genres : List String
  tracks : List Track
deriving DecidableEq

/-- `Artist` from the source. -/
structure Artist where
  artistName : String
  albums : List Album
deriving DecidableEq

/-- `ProcessingError` from the source. -/
structure ProcessingError where
  file : String
  error : String
deriving DecidableEq

/-- The mutable state of one `processAlbum` run: `album.tracks`, the
`allGenres` set (a JS `Set`, i.e. insertion-ordered and duplicate-free),
and the `errors` array. -/
structure AlbumState where
  tracks : List Track
  genres : List String
  errors : List ProcessingError
deriving DecidableEq

/-- JS `Set.add`: append `g` unless already present (insertion order kept). -/
def insertGenre (gs : List String) (g : String) : List String :=
  if g ∈ gs then gs else gs ++ [g]

/-- `common.title || trackFile.name`: JS `||` also rejects the empty string,
so an empty embedded title falls back to the file name. -/
def fallbackTitle (t : Option String) (name : String) : String :=
  match t with
  | some s => if s = "" then name else s
  | none => name

/-- Processing of one track file inside a batch (lines 89–109 of the source):
probe the file; on success add its genres to the album genre set and append a
track; on failure append a `ProcessingError` for that file. -/
def stepFile (fs : FS) (albumPath : String) (st : AlbumState) (tf : DirEntry) :
    AlbumState :=
  let filePath := pathJoin albumPath tf.name
  match fs.probe filePath with
  | Except.ok r =>
      { st with
        genres := (r.genre.getD []).foldl insertGenre st.genres,
        tracks := st.tracks ++ [{ title := fallbackTitle r.title tf.name }] }
  | Except.error e =>
      { st with errors := st.errors ++ [{ file := filePath, error := e }] }

/-- `batchSize = 10` from the source. -/
def batchSize : Nat := 10

/-- Chunking worker, structurally recursive on a fuel bound on the list
length (so that it evaluates by kernel reduction). -/
def chunksOfAux (n : Nat) : Nat → List α → List (List α)
  | _, [] => []
  | 0, l => [l]
  | fuel + 1, a :: l => (a :: l.take (n - 1)) :: chunksOfAux n fuel (l.drop (n - 1))

/-- Split a list into consecutive chunks: the slices
`musicFiles.slice(i, i + batchSize)` of the batching loop. -/
def chunksOf (n : Nat) (l : List α) : List (List α) := chunksOfAux n l.length l

/-- `processAlbum` (lines 71–128): list the album directory, filter to
supported audio files, probe them in batches of ten, and return the album
(absent when no track was produced) together with the per-file errors.
A listing failure is caught and becomes a single error tagged with
`albumPath`. -/
def processAlbum (fs : FS) (albumPath albumName : String) :
    Option Album × List ProcessingError :=
  match fs.readdir albumPath with
  | Except.error e => (none, [{ file := albumPath, error := e }])
  | Except.ok trackFiles =>
    let musicFiles := trackFiles.filter isSupportedFile
    if musicFiles.length = 0 then (none, [])
    else
      let st : AlbumState := (chunksOf batchSize musicFiles).foldl
        (fun s batch => batch.foldl (stepFile fs albumPath) s)
        { tracks := [], genres := [], errors := [] }
      (if st.tracks.length > 0 then
        some { albumTitle := albumName, genres := st.genres, tracks := st.tracks }
       else none,
       st.errors)

/-- The album loop of `scanDirectory` (lines 150–158): for each sub-entry of
an artist directory that is itself a directory, run `processAlbum`, keeping
returned albums and accumulating errors. -/
def processAlbums (fs : FS) (artistPath : String) :
    List DirEntry → List Album × List ProcessingError
  | [] => ([], [])
  | d :: rest =>
    if d.isDirectory then
      let r := processAlbum fs (pathJoin artistPath d.name) d.name
      let acc := processAlbums fs artistPath rest
      (r.1.toList ++ acc.1, r.2 ++ acc.2)
    else processAlbums fs artistPath rest

/-- The artist loop of `scanDirectory` (lines 140–164).  Note that the
`fs.readdir(artistPath)` call at line 147 is NOT inside any try/catch: a
listing failure at artist level propagates out of `scanDirectory`, which we
model by an `Except.error` that aborts the fold and discards the
accumulators. -/
def scanArtists (fs : FS) (directory : String) :
    List DirEntry → List Artist → List ProcessingError →
    Except String (List Artist × List ProcessingError)
  | [], artists, errors => Except.ok (artists, errors)
  | d :: rest, artists, errors =>
    if d.isDirectory then
      match fs.readdir (pathJoin directory d.name) with
      | Except.error e => Except.error e
      | Except.ok albumDirs =>
        let r := processAlbums fs (pathJoin directory d.name) albumDirs
        scanArtists fs directory rest
          (if r.1.length > 0 then
            artists ++ [{ artistName := d.name, albums := r.1 }]
           else artists)
          (errors ++ r.2)
    else scanArtists fs directory rest artists errors

/-- `scanDirectory` (lines 130–167): list the root, apply the artist limit to
the raw entry list (`limit > 0 ? artistDirs.slice(0, limit) : artistDirs` —
the slice happens BEFORE the `isDirectory` check), then process the selected
entries sequentially.  Root or artist listing failures propagate. -/
def scanDirectory (fs : FS) (directory : String) (limit : Int) :
    Except String (List Artist × List ProcessingError) :=
  match fs.readdir directory with
  | Except.error e => Except.error e
  | Except.ok artistDirs =>
    let dirsToProcess := if limit > 0 then artistDirs.take limit.toNat else artistDirs
    scanArtists fs directory dirsToProcess [] []

/-- Output path resolution in `main` (lines 218–236): an existing directory
gets `music_metadata.json` appended; an existing file is used verbatim; a
non-existing path is a file when it has an extension, otherwise a
directory. -/
def resolveOutputFile (fs : FS) (outputPath : String) : String :=
  match fs.stat outputPath with
  | Except.ok stats =>
      if stats.isDirectory then pathJoin outputPath "music_metadata.json"
      else outputPath
  | Except.error _ =>
      if extname outputPath ≠ "" then outputPath
      else pathJoin outputPath "music_metadata.json"

/-- What `main` wrote and how it exited. -/
structure RunOutcome where
  writtenOutput : Option (String × List Artist)
  writtenErrors : Option (String × List ProcessingError)
  exitCode : Nat
deriving DecidableEq

/-- `path.dirname` of the slash-containing paths the program builds: drop the
last `/`-segment. -/
def dirnameOf (p : String) : String :=
  String.mk (((p.toList.reverse.dropWhile (fun c => c ≠ '/')).drop 1).reverse)

/-- The scan-and-save portion of `main` (lines 245–283): run the scan; on
normal return write the artists file when at least one artist was produced
and the errors file when at least one error was recorded, then exit 0; a
thrown error from the scan reaches the catch at line 280, which writes
nothing and exits 1 — the accumulated artists and errors are lost. -/
def runScanAndSave (fs : FS) (musicDirectory : String) (limit : Int)
    (outputFile : String) : RunOutcome :=
  match scanDirectory fs musicDirectory limit with
  | Except.error _ =>
      { writtenOutput := none, writtenErrors := none, exitCode := 1 }
  | Except.ok (artists, errors) =>
      { writtenOutput :=
          if artists.length > 0 then some (outputFile, artists) else none,
        writtenErrors :=
          if errors.length > 0 then
            some (pathJoin (dirnameOf outputFile) "music_metadata_errors.json", errors)
          else none,
        exitCode := 0 }

/-! ## Characterisations of the album-level fold -/

/-- The track produced for one file, if its probe succeeds. -/
def trackOf (fs : FS) (albumPath : String) (tf : DirEntry) : Option Track :=
  match fs.probe (pathJoin albumPath tf.name) with
  | Except.ok r => some { title := fallbackTitle r.title tf.name }
  | Except.error _ => none

/-- The error produced for one file, if its probe fails. -/
def errorOf (fs : FS) (albumPath : String) (tf : DirEntry) :
    Option ProcessingError :=
  match fs.probe (pathJoin albumPath tf.name) with
  | Except.ok _ => none
  | Except.error e => some { file := pathJoin albumPath tf.name, error := e }

/-- The genre-set contribution of one file. -/
def genresStep (fs : FS) (albumPath : String) (gs : List String)
    (tf : DirEntry) : List String :=
  match fs.probe (pathJoin albumPath tf.name) with
  | Except.ok r => (r.genre.getD []).foldl insertGenre gs
  | Except.error _ => gs

/-- The album contributed to an artist by one sub-entry of its directory. -/
def albumOf (fs : FS) (artistPath : String) (d : DirEntry) : Option Album :=
  if d.isDirectory then (processAlbum fs (pathJoin artistPath d.name) d.name).1
  else none

/-- The artist contributed to the scan by one entry of the root listing,
provided its own listing succeeds. -/
def artistOf (fs : FS) (directory : String) (d : DirEntry) : Option Artist :=
  if d.isDirectory then
    match fs.readdir (pathJoin directory d.name) with
    | Except.error _ => none
    | Except.ok albumDirs =>
      if (processAlbums fs (pathJoin directory d.name) albumDirs).1.length > 0 then
        some { artistName := d.name,
               albums := (processAlbums fs (pathJoin directory d.name) albumDirs).1 }
      else none
  else none

deriving instance DecidableEq for Except

/-! ## Concrete fixtures used by witnesses and counterexamples -/

/-- A small music library over root `"R"`: a stray file at the root, artist
`A` (one album, one good and one corrupt track, one unsupported file),
artist `B` (one album, two good tracks with overlapping genre lists, one
missing embedded title), and artist `C` whose directory listing fails. -/
def fsLib : FS :=
  { readdir := fun p =>
      if p = "R" then
        Except.ok [⟨"notes.txt", EntryKind.file⟩, ⟨"A", EntryKind.directory⟩,
                   ⟨"B", EntryKind.directory⟩, ⟨"C", EntryKind.directory⟩]
      else if p = "R/A" then
        Except.ok [⟨"Alb", EntryKind.directory⟩, ⟨"cover.jpg", EntryKind.file⟩]
      else if p = "R/A/Alb" then
        Except.ok [⟨"a.mp3", EntryKind.file⟩, ⟨"b.flac", EntryKind.file⟩,
                   ⟨"x.txt", EntryKind.file⟩]
      else if p = "R/B" then
        Except.ok [⟨"Alb2", EntryKind.directory⟩]
      else if p = "R/B/Alb2" then
        Except.ok [⟨"u.mp3", EntryKind.file⟩, ⟨"v.mp3", EntryKind.file⟩]
      else if p = "R/C" then
        Except.error "EACCES"
      else Except.error "ENOENT",
    probe := fun p =>
      if p = "R/A/Alb/a.mp3" then
        Except.ok { title := some "Song1", genre := some ["Rock", "Jazz"] }
      else if p = "R/B/Alb2/u.mp3" then
        Except.ok { title := none, genre := some ["Rock", "Jazz"] }
      else if p = "R/B/Alb2/v.mp3" then
        Except.ok { title := some "V", genre := some ["Jazz", "Blues"] }
      else Except.error "Invalid FLAC preamble",
    stat := fun _ => Except.error "ENOENT" }

/-- A one-album library whose single track carries an empty-string embedded
title. -/
def fsEmptyTitle : FS :=
  { readdir := fun p =>
      if p = "Alb" then Except.ok [⟨"w.mp3", EntryKind.file⟩]
      else Except.error "ENOENT",
    probe := fun p =>
      if p = "Alb/w.mp3" then Except.ok { title := some "", genre := none }
      else Except.error "probe failure",
    stat := fun _ => Except.error "ENOENT" }

/-- A filesystem fixing the `stat` results used by the output-path claims:
`"outdir"` is an existing directory, `"outfile"` an existing file, and every
other path does not exist. -/
def fsOut : FS :=
  { readdir := fun _ => Except.error "ENOENT",
    probe := fun _ => Except.error "probe failure",
    stat := fun p =>
      if p = "outdir" then Except.ok { isDirectory := true }
      else if p = "outfile" then Except.ok { isDirectory := false }
      else Except.error "ENOENT" }

theorem chunksOfAux_foldl (f : β → α → β) (n : Nat) :
    ∀ (fuel : Nat) (l : List α), l.length ≤ fuel →
      ∀ (init : β),
        (chunksOfAux n fuel l).foldl (fun s batch => batch.foldl f s) init =
          l.foldl f init := by
  intro fuel
  induction fuel with
  | zero =>
      intro l hl init
      have : l = [] := List.eq_nil_of_length_eq_zero (Nat.le_zero.mp hl)
      subst this
      simp [chunksOfAux]
  | succ fuel ih =>
      intro l hl init
      cases l with
      | nil => simp [chunksOfAux]
      | cons a l =>
          rw [chunksOfAux]
          simp only [List.foldl_cons]
          rw [ih (l.drop (n - 1)) (by simp at hl; simp [List.length_drop]; omega)]
          conv_rhs => rw [← List.take_append_drop (n - 1) l, List.foldl_append]

theorem chunksOf_foldl (f : β → α → β) (n : Nat) (l : List α) (init : β) :
    (chunksOf n l).foldl (fun s batch => batch.foldl f s) init = l.foldl f init :=
  chunksOfAux_foldl f n l.length l (Nat.le_refl _) init

theorem foldl_stepFile (fs : FS) (p : String) :
    ∀ (l : List DirEntry) (st : AlbumState),
      l.foldl (stepFile fs p) st =
        { tracks := st.tracks ++ l.filterMap (trackOf fs p),
          genres := l.foldl (genresStep fs p) st.genres,
          errors := st.errors ++ l.filterMap (errorOf fs p) } := by
  intro l
  induction l with
  | nil => intro st; simp
  | cons a l ih =>
      intro st
      simp only [List.foldl_cons, List.filterMap_cons, ih]
      unfold stepFile trackOf errorOf genresStep
      cases h : fs.probe (pathJoin p a.name) <;> simp [h]

/-- Closed form of `processAlbum` on a successfully listed album directory:
tracks are the successful probes in (filtered) listing order, errors the
failed probes in listing order, genres the left fold of the genre sets. -/
theorem processAlbum_ok (fs : FS) (p name : String) (entries : List DirEntry)
    (h : fs.readdir p = Except.ok entries) :
    processAlbum fs p name =
      ((if ((entries.filter isSupportedFile).filterMap (trackOf fs p)).length > 0 then
          some { albumTitle := name,
                 genres := (entries.filter isSupportedFile).foldl (genresStep fs p) [],
                 tracks := (entries.filter isSupportedFile).filterMap (trackOf fs p) }
        else none),
       (entries.filter isSupportedFile).filterMap (errorOf fs p)) := by
  unfold processAlbum
  rw [h]
  by_cases hmf : (entries.filter isSupportedFile).length = 0
  · have : entries.filter isSupportedFile = [] := List.eq_nil_of_length_eq_zero hmf
    simp [this]
  · simp only [hmf, if_false]
    rw [chunksOf_foldl, foldl_stepFile]
    simp

/-- Every supported file yields exactly one of: a track (probe succeeded) or
an error (probe failed). -/
theorem length_trackOf_add_errorOf (fs : FS) (p : String) (l : List DirEntry) :
    (l.filterMap (trackOf fs p)).length + (l.filterMap (errorOf fs p)).length
      = l.length := by
  induction l with
  | nil => simp
  | cons a l ih =>
      cases h : fs.probe (pathJoin p a.name) with
      | ok r =>
          have ht : trackOf fs p a = some { title := fallbackTitle r.title a.name } := by
            simp [trackOf, h]
          have he : errorOf fs p a = none := by simp [errorOf, h]
          simp only [List.filterMap_cons, ht, he, List.length_cons]
          omega
      | error e =>
          have ht : trackOf fs p a = none := by simp [trackOf, h]
          have he : errorOf fs p a
              = some { file := pathJoin p a.name, error := e } := by
            simp [errorOf, h]
          simp only [List.filterMap_cons, ht, he, List.length_cons]
          omega

theorem mem_insertGenre (gs : List String) (g x : String) :
    x ∈ insertGenre gs g ↔ x ∈ gs ∨ x = g := by
  unfold insertGenre
  by_cases h : g ∈ gs
  · simp only [h, if_true]
    exact ⟨Or.inl, fun hx => hx.elim id (fun e => e ▸ h)⟩
  · simp [h]

theorem nodup_insertGenre (gs : List String) (g : String) (h : gs.Nodup) :
    (insertGenre gs g).Nodup := by
  unfold insertGenre
  by_cases hg : g ∈ gs
  · simpa [hg]
  · simp [hg, List.nodup_append, h]

theorem mem_foldl_insertGenre (ng : List String) :
    ∀ (gs : List String) (x : String),
      x ∈ ng.foldl insertGenre gs ↔ x ∈ gs ∨ x ∈ ng := by
  induction ng with
  | nil => simp
  | cons a ng ih =>
      intro gs x
      simp only [List.foldl_cons, ih, mem_insertGenre, List.mem_cons]
      tauto

theorem nodup_foldl_insertGenre (ng : List String) :
    ∀ (gs : List String), gs.Nodup → (ng.foldl insertGenre gs).Nodup := by
  induction ng with
  | nil => intro gs h; simpa
  | cons a ng ih =>
      intro gs h
      exact ih _ (nodup_insertGenre gs a h)

theorem mem_foldl_genresStep (fs : FS) (p : String) (l : List DirEntry) :
    ∀ (gs : List String) (x : String),
      x ∈ l.foldl (genresStep fs p) gs ↔
        x ∈ gs ∨ ∃ tf ∈ l, ∃ r, fs.probe (pathJoin p tf.name) = Except.ok r ∧
          x ∈ r.genre.getD [] := by
  induction l with
  | nil => simp
  | cons a l ih =>
      intro gs x
      simp only [List.foldl_cons, ih, List.mem_cons]
      unfold genresStep
      cases h : fs.probe (pathJoin p a.name) with
      | error e =>
          constructor
          · rintro (hx | ⟨tf, htf, r, hr, hxr⟩)
            · exact Or.inl hx
            · exact Or.inr ⟨tf, Or.inr htf, r, hr, hxr⟩
          · rintro (hx | ⟨tf, (rfl | htf), r, hr, hxr⟩)
            · exact Or.inl hx
            · rw [h] at hr; cases hr
            · exact Or.inr ⟨tf, htf, r, hr, hxr⟩
      | ok r0 =>
          rw [mem_foldl_insertGenre]
          constructor
          · rintro ((hx | hx0) | ⟨tf, htf, r, hr, hxr⟩)
            · exact Or.inl hx
            · exact Or.inr ⟨a, Or.inl rfl, r0, h, hx0⟩
            · exact Or.inr ⟨tf, Or.inr htf, r, hr, hxr⟩
          · rintro (hx | ⟨tf, (rfl | htf), r, hr, hxr⟩)
            · exact Or.inl (Or.inl hx)
            · rw [h] at hr; cases hr with | refl => exact Or.inl (Or.inr hxr)
            · exact Or.inr ⟨tf, htf, r, hr, hxr⟩

theorem nodup_foldl_genresStep (fs : FS) (p : String) (l : List DirEntry) :
    ∀ (gs : List String), gs.Nodup → (l.foldl (genresStep fs p) gs).Nodup := by
  induction l with
  | nil => intro gs h; simpa
  | cons a l ih =>
      intro gs h
      simp only [List.foldl_cons]
      apply ih
      unfold genresStep
      cases fs.probe (pathJoin p a.name) with
      | error e => exact h
      | ok r => exact nodup_foldl_insertGenre _ _ h

/-! ## Characterisations of the directory walk -/

theorem processAlbums_albums (fs : FS) (artistPath : String) :
    ∀ l : List DirEntry,
      (processAlbums fs artistPath l).1 = l.filterMap (albumOf fs artistPath) := by
  intro l
  induction l with
  | nil => simp [processAlbums]
  | cons d rest ih =>
      rw [processAlbums, List.filterMap_cons]
      by_cases hd : d.isDirectory
      · have ha : albumOf fs artistPath d
            = (processAlbum fs (pathJoin artistPath d.name) d.name).1 := by
          simp [albumOf, hd]
        rw [ha]
        cases h1 : (processAlbum fs (pathJoin artistPath d.name) d.name).1 <;>
          simp [hd, ih, h1]
      · have ha : albumOf fs artistPath d = none := by simp [albumOf, hd]
        rw [ha]
        simp [hd, ih]

/-- When the artist loop returns normally, the artists produced are exactly
those of the processed entries, in listing order, appended to the incoming
accumulator. -/
theorem scanArtists_ok_artists (fs : FS) (directory : String) :
    ∀ (l : List DirEntry) (artists : List Artist) (errors : List ProcessingError)
      (A : List Artist) (E : List ProcessingError),
      scanArtists fs directory l artists errors = Except.ok (A, E) →
      A = artists ++ l.filterMap (artistOf fs directory) := by
  intro l
  induction l with
  | nil =>
      intro artists errors A E h
      rw [scanArtists] at h
      cases h
      simp
  | cons d rest ih =>
      intro artists errors A E h
      rw [scanArtists] at h
      by_cases hd : d.isDirectory
      · rw [if_pos hd] at h
        cases hr : fs.readdir (pathJoin directory d.name) with
        | error e => rw [hr] at h; cases h
        | ok albumDirs =>
            rw [hr] at h
            simp only at h
            have hA := ih _ _ _ _ h
            rw [List.filterMap_cons]
            by_cases hl :
                (processAlbums fs (pathJoin directory d.name) albumDirs).1.length > 0
            · have ha : artistOf fs directory d
                  = some { artistName := d.name,
                           albums := (processAlbums fs
                             (pathJoin directory d.name) albumDirs).1 } := by
                simp only [artistOf, hd, if_true, hr, hl]
              rw [if_pos hl] at hA
              rw [ha, hA]
              simp
            · have ha : artistOf fs directory d = none := by
                simp only [artistOf, hd, if_true, hr, hl, if_false]
              rw [if_neg hl] at hA
              rw [ha, hA]
      · rw [if_neg hd] at h
        have hA := ih _ _ _ _ h
        rw [List.filterMap_cons]
        have ha : artistOf fs directory d = none := by simp [artistOf, hd]
        rw [ha, hA]

/-- If some processed entry is a directory whose listing fails — and every
earlier directory entry lists successfully — the artist loop aborts with that
failure, discarding both accumulators. -/
theorem scanArtists_abort (fs : FS) (directory : String) (d : DirEntry)
    (e : String) (hd : d.isDirectory = true)
    (he : fs.readdir (pathJoin directory d.name) = Except.error e) :
    ∀ (l1 l2 : List DirEntry) (artists : List Artist)
      (errors : List ProcessingError),
      (∀ dd ∈ l1, dd.isDirectory = true →
        (fs.readdir (pathJoin directory dd.name)).isOk = true) →
      scanArtists fs directory (l1 ++ d :: l2) artists errors
        = Except.error e := by
  intro l1
  induction l1 with
  | nil =>
      intro l2 artists errors _
      rw [List.nil_append, scanArtists, if_pos hd, he]
  | cons a l1 ih =>
      intro l2 artists errors hok
      rw [List.cons_append, scanArtists]
      by_cases ha : a.isDirectory
      · have hx := hok a (List.mem_cons_self a l1) ha
        cases hr : fs.readdir (pathJoin directory a.name) with
        | error e1 => rw [hr] at hx; cases hx
        | ok x =>
            rw [if_pos ha]
            simp only
            exact ih l2 _ _ (fun dd hdd => hok dd (List.mem_cons_of_mem a hdd))
      · rw [if_neg ha]
        exact ih l2 _ _ (fun dd hdd => hok dd (List.mem_cons_of_mem a hdd))

/-- An album is only ever returned with a non-empty track list. -/
theorem processAlbum_some_tracks_pos (fs : FS) (p name : String) (a : Album)
    (h : (processAlbum fs p name).1 = some a) : a.tracks.length > 0 := by
  unfold processAlbum at h
  cases hr : fs.readdir p with
  | error e => rw [hr] at h; cases h
  | ok entries =>
      rw [hr] at h
      simp only at h
      by_cases hmf : (entries.filter isSupportedFile).length = 0
      · rw [if_pos hmf] at h; cases h
      · rw [if_neg hmf] at h
        by_cases ht :
            ((chunksOf batchSize (entries.filter isSupportedFile)).foldl
              (fun (s : AlbumState) (batch : List DirEntry) =>
                batch.foldl (stepFile fs p) s)
              ({ tracks := [], genres := [], errors := [] } : AlbumState)).tracks.length > 0
        · rw [if_pos ht] at h
          cases h
          exact ht
        · rw [if_neg ht] at h; cases h

/-- The artists of a normally-returning scan, in root listing order. -/
theorem scanDirectory_ok_artists (fs : FS) (directory : String) (limit : Int)
    (entries : List DirEntry) (A : List Artist) (E : List ProcessingError)
    (hroot : fs.readdir directory = Except.ok entries)
    (h : scanDirectory fs directory limit = Except.ok (A, E)) :
    A = (if limit > 0 then entries.take limit.toNat else entries).filterMap
          (artistOf fs directory) := by
  unfold scanDirectory at h
  rw [hroot] at h
  simp only at h
  simpa using scanArtists_ok_artists fs directory _ [] [] A E h

/-- If, among the processed root entries, some directory's listing fails
while every earlier directory entry lists fine, the whole scan aborts with
that failure. -/
theorem scanDirectory_abort (fs : FS) (directory : String) (limit : Int)
    (entries l1 l2 : List DirEntry) (d : DirEntry) (e : String)
    (hroot : fs.readdir directory = Except.ok entries)
    (hsplit : (if limit > 0 then entries.take limit.toNat else entries)
      = l1 ++ d :: l2)
    (hd : d.isDirectory = true)
    (he : fs.readdir (pathJoin directory d.name) = Except.error e)
    (hok : ∀ dd ∈ l1, dd.isDirectory = true →
      (fs.readdir (pathJoin directory dd.name)).isOk = true) :
    scanDirectory fs directory limit = Except.error e := by
  unfold scanDirectory
  rw [hroot]
  simp only
  rw [hsplit]
  exact scanArtists_abort fs directory d e hd he l1 l2 [] [] hok

/-! ## Claims -/

/-- C3: for every album directory containing N supported audio files of which
K probes fail (0 ≤ K ≤ N), `processAlbum` returns exactly the K
`ProcessingError` entries of the failed files — one per failed file, tagged
with that file's path — and an `Album` with exactly N−K tracks when
N−K > 0 (absent otherwise); no single file's failure prevents the other
files from contributing their tracks. -/
theorem C3_completeness_under_failure (fs : FS) (p name : String)
    (entries : List DirEntry) (h : fs.readdir p = Except.ok entries) :
    ((processAlbum fs p name).2
       = (entries.filter isSupportedFile).filterMap (errorOf fs p))
    ∧ (∀ a, (processAlbum fs p name).1 = some a →
        a.tracks = (entries.filter isSupportedFile).filterMap (trackOf fs p)
        ∧ a.tracks.length
            = (entries.filter isSupportedFile).length
              - (processAlbum fs p name).2.length)
    ∧ ((processAlbum fs p name).1 = none ↔
        (entries.filter isSupportedFile).length
          - (processAlbum fs p name).2.length = 0) := by
  have hnk := length_trackOf_add_errorOf fs p (entries.filter isSupportedFile)
  have hpa := processAlbum_ok fs p name entries h
  have h2 : (processAlbum fs p name).2
      = (entries.filter isSupportedFile).filterMap (errorOf fs p) := by
    rw [hpa]
  have h1 : (processAlbum fs p name).1
      = (if ((entries.filter isSupportedFile).filterMap (trackOf fs p)).length > 0
         then some { albumTitle := name,
                     genres := (entries.filter isSupportedFile).foldl
                       (genresStep fs p) [],
                     tracks := (entries.filter isSupportedFile).filterMap
                       (trackOf fs p) }
         else none) := by
    rw [hpa]
  refine ⟨h2, ?_, ?_⟩
  · intro a ha
    rw [h1] at ha
    by_cases ht :
        ((entries.filter isSupportedFile).filterMap (trackOf fs p)).length > 0
    · rw [if_pos ht] at ha
      injection ha with ha2
      subst ha2
      refine ⟨rfl, ?_⟩
      rw [h2]
      show ((entries.filter isSupportedFile).filterMap (trackOf fs p)).length
        = (entries.filter isSupportedFile).length
          - ((entries.filter isSupportedFile).filterMap (errorOf fs p)).length
      omega
    · rw [if_neg ht] at ha
      exact Option.noConfusion ha
  · rw [h1, h2]
    by_cases ht :
        ((entries.filter isSupportedFile).filterMap (trackOf fs p)).length > 0
    · rw [if_pos ht]
      constructor
      · intro hc; exact Option.noConfusion hc
      · intro hc; exfalso; omega
    · rw [if_neg ht]
      constructor
      · intro _; omega
      · intro _; rfl

/-- Witness for C3: the album `R/A/Alb` holds N = 2 supported files of which
K = 1 fails; the album keeps 1 track and exactly the failing file's error is
reported. -/
theorem C3_witness :
    (fsLib.readdir "R/A/Alb" = Except.ok
       [⟨"a.mp3", EntryKind.file⟩, ⟨"b.flac", EntryKind.file⟩,
        ⟨"x.txt", EntryKind.file⟩])
    ∧ (((processAlbum fsLib "R/A/Alb" "Alb").2
          = [{ file := "R/A/Alb/b.flac", error := "Invalid FLAC preamble" }])
       ∧ (∀ a, (processAlbum fsLib "R/A/Alb" "Alb").1 = some a →
           a.tracks = [{ title := "Song1" }]
           ∧ a.tracks.length
               = 2 - (processAlbum fsLib "R/A/Alb" "Alb").2.length)
       ∧ ((processAlbum fsLib "R/A/Alb" "Alb").1 = none ↔ 1 = 0)) :=
  ⟨by decide,
   C3_completeness_under_failure fsLib "R/A/Alb" "Alb"
     [⟨"a.mp3", EntryKind.file⟩, ⟨"b.flac", EntryKind.file⟩,
      ⟨"x.txt", EntryKind.file⟩] (by decide)⟩

/-- Tracks of a returned album are exactly the successful probes of the
supported files, in listing order. -/
theorem processAlbum_some_tracks_eq (fs : FS) (p name : String)
    (entries : List DirEntry) (a : Album)
    (h : fs.readdir p = Except.ok entries)
    (ha : (processAlbum fs p name).1 = some a) :
    a.tracks = (entries.filter isSupportedFile).filterMap (trackOf fs p) := by
  have hpa := processAlbum_ok fs p name entries h
  have h1 : (processAlbum fs p name).1
      = (if ((entries.filter isSupportedFile).filterMap (trackOf fs p)).length > 0
         then some { albumTitle := name,
                     genres := (entries.filter isSupportedFile).foldl
                       (genresStep fs p) [],
                     tracks := (entries.filter isSupportedFile).filterMap
                       (trackOf fs p) }
         else none) := by
    rw [hpa]
  rw [h1] at ha
  by_cases ht :
      ((entries.filter isSupportedFile).filterMap (trackOf fs p)).length > 0
  · rw [if_pos ht] at ha
    injection ha with ha2
    subst ha2
    rfl
  · rw [if_neg ht] at ha
    exact Option.noConfusion ha

/-- An artist produced by one root entry has a non-empty album list whose
albums all carry at least one track. -/
theorem artistOf_some (fs : FS) (directory : String) (d : DirEntry)
    (ar : Artist) (h : artistOf fs directory d = some ar) :
    ar.albums.length > 0 ∧ ∀ al ∈ ar.albums, al.tracks.length > 0 := by
  unfold artistOf at h
  by_cases hd : d.isDirectory
  · rw [if_pos hd] at h
    cases hr : fs.readdir (pathJoin directory d.name) with
    | error e => rw [hr] at h; exact Option.noConfusion h
    | ok albumDirs =>
        rw [hr] at h
        simp only at h
        by_cases hl :
            (processAlbums fs (pathJoin directory d.name) albumDirs).1.length > 0
        · rw [if_pos hl] at h
          injection h with h2
          subst h2
          refine ⟨hl, ?_⟩
          intro al hal
          have hal2 : al ∈ (processAlbums fs (pathJoin directory d.name)
              albumDirs).1 := hal
          rw [processAlbums_albums] at hal2
          obtain ⟨dd, _, hdal⟩ := List.mem_filterMap.mp hal2
          unfold albumOf at hdal
          by_cases hddd : dd.isDirectory
          · rw [if_pos hddd] at hdal
            exact processAlbum_some_tracks_pos _ _ _ _ hdal
          · rw [if_neg hddd] at hdal
            exact Option.noConfusion hdal
        · rw [if_neg hl] at h
          exact Option.noConfusion h
  · rw [if_neg hd] at h
    exact Option.noConfusion h

/-- C4: every emitted Album has at least one Track and every emitted Artist
has at least one Album: `scanDirectory` never includes an Artist whose album
list is empty or an Album whose track list is empty, and `processAlbum`
never returns an Album without tracks. -/
theorem C4_nonempty_invariants (fs : FS) (directory : String) (limit : Int)
    (A : List Artist) (E : List ProcessingError) (p name : String)
    (h : scanDirectory fs directory limit = Except.ok (A, E)) :
    (∀ ar ∈ A, ar.albums.length > 0 ∧ ∀ al ∈ ar.albums, al.tracks.length > 0)
    ∧ (∀ al, (processAlbum fs p name).1 = some al → al.tracks.length > 0) := by
  constructor
  · intro ar har
    cases hroot : fs.readdir directory with
    | error e =>
        unfold scanDirectory at h
        rw [hroot] at h
        exact Except.noConfusion h
    | ok entries =>
        have hA := scanDirectory_ok_artists fs directory limit entries A E hroot h
        rw [hA] at har
        obtain ⟨d, _, hd⟩ := List.mem_filterMap.mp har
        exact artistOf_some fs directory d ar hd
  · intro al hal
    exact processAlbum_some_tracks_pos fs p name al hal

/-- Witness for C4 at the concrete library: both emitted artists have one
album each, and all albums have at least one track. -/
theorem C4_witness :
    (scanDirectory fsLib "R" 3 = Except.ok
       ([{ artistName := "A",
           albums := [{ albumTitle := "Alb", genres := ["Rock", "Jazz"],
                        tracks := [{ title := "Song1" }] }] },
         { artistName := "B",
           albums := [{ albumTitle := "Alb2",
                        genres := ["Rock", "Jazz", "Blues"],
                        tracks := [{ title := "u.mp3" }, { title := "V" }] }] }],
        [{ file := "R/A/Alb/b.flac", error := "Invalid FLAC preamble" }]))
    ∧ ((∀ ar ∈
          ([{ artistName := "A",
              albums := [{ albumTitle := "Alb", genres := ["Rock", "Jazz"],
                           tracks := [{ title := "Song1" }] }] },
            { artistName := "B",
              albums := [{ albumTitle := "Alb2",
                           genres := ["Rock", "Jazz", "Blues"],
                           tracks := [{ title := "u.mp3" }, { title := "V" }] }]}] :
            List Artist),
          ar.albums.length > 0 ∧ ∀ al ∈ ar.albums, al.tracks.length > 0)
       ∧ (∀ al, (processAlbum fsLib "R/A/Alb" "Alb").1 = some al →
           al.tracks.length > 0)) :=
  ⟨by decide,
   C4_nonempty_invariants fsLib "R" 3
     [{ artistName := "A",
        albums := [{ albumTitle := "Alb", genres := ["Rock", "Jazz"],
                     tracks := [{ title := "Song1" }] }] },
      { artistName := "B",
        albums := [{ albumTitle := "Alb2",
                     genres := ["Rock", "Jazz", "Blues"],
                     tracks := [{ title := "u.mp3" }, { title := "V" }] }] }]
     [{ file := "R/A/Alb/b.flac", error := "Invalid FLAC preamble" }]
     "R/A/Alb" "Alb" (by decide)⟩

/-- C5: the genres of a returned album are duplicate-free and contain exactly
the genres reported by the successful probes of that album's supported
files — i.e. the set union of all reported genre lists. -/
theorem C5_genre_union (fs : FS) (p name : String) (entries : List DirEntry)
    (a : Album) (h : fs.readdir p = Except.ok entries)
    (ha : (processAlbum fs p name).1 = some a) :
    a.genres.Nodup
    ∧ ∀ g, (g ∈ a.genres ↔
        ∃ tf ∈ entries.filter isSupportedFile, ∃ r,
          fs.probe (pathJoin p tf.name) = Except.ok r
          ∧ g ∈ r.genre.getD []) := by
  have hpa := processAlbum_ok fs p name entries h
  have h1 : (processAlbum fs p name).1
      = (if ((entries.filter isSupportedFile).filterMap (trackOf fs p)).length > 0
         then some { albumTitle := name,
                     genres := (entries.filter isSupportedFile).foldl
                       (genresStep fs p) [],
                     tracks := (entries.filter isSupportedFile).filterMap
                       (trackOf fs p) }
         else none) := by
    rw [hpa]
  rw [h1] at ha
  by_cases ht :
      ((entries.filter isSupportedFile).filterMap (trackOf fs p)).length > 0
  · rw [if_pos ht] at ha
    injection ha with ha2
    subst ha2
    constructor
    · exact nodup_foldl_genresStep fs p _ [] List.nodup_nil
    · intro g
      have hm := mem_foldl_genresStep fs p (entries.filter isSupportedFile) [] g
      simpa using hm
  · rw [if_neg ht] at ha
    exact Option.noConfusion ha

/-- Witness for C5: the album `R/B/Alb2` has tracks reporting genre lists
["Rock","Jazz"] and ["Jazz","Blues"]; the album's genres are exactly their
union ["Rock","Jazz","Blues"], duplicate-free. -/
theorem C5_witness :
    ((processAlbum fsLib "R/B/Alb2" "Alb2").1 = some
       { albumTitle := "Alb2", genres := ["Rock", "Jazz", "Blues"],
         tracks := [{ title := "u.mp3" }, { title := "V" }] })
    ∧ (fsLib.probe "R/B/Alb2/u.mp3"
        = Except.ok { title := none, genre := some ["Rock", "Jazz"] })
    ∧ (fsLib.probe "R/B/Alb2/v.mp3"
        = Except.ok { title := some "V", genre := some ["Jazz", "Blues"] })
    ∧ ((["Rock", "Jazz", "Blues"] : List String).Nodup
       ∧ ∀ g, (g ∈ (["Rock", "Jazz", "Blues"] : List String) ↔
           ∃ tf ∈ ([⟨"u.mp3", EntryKind.file⟩, ⟨"v.mp3", EntryKind.file⟩]
             : List DirEntry).filter isSupportedFile, ∃ r,
             fsLib.probe (pathJoin "R/B/Alb2" tf.name) = Except.ok r
             ∧ g ∈ r.genre.getD [])) :=
  ⟨by decide, by decide, by decide,
   C5_genre_union fsLib "R/B/Alb2" "Alb2"
     [⟨"u.mp3", EntryKind.file⟩, ⟨"v.mp3", EntryKind.file⟩]
     { albumTitle := "Alb2", genres := ["Rock", "Jazz", "Blues"],
       tracks := [{ title := "u.mp3" }, { title := "V" }] }
     (by decide) (by decide)⟩

/-- C7: when listing an album directory fails, `processAlbum` returns an
absent album and exactly one `ProcessingError` whose file field is the album
path; the failure is absorbed (the function returns a value, it does not
re-throw to its caller). -/
theorem C7_album_listing_failure (fs : FS) (p name e : String)
    (h : fs.readdir p = Except.error e) :
    processAlbum fs p name = (none, [{ file := p, error := e }]) := by
  unfold processAlbum
  rw [h]

/-- Witness for C7: listing `R/C` fails with EACCES and `processAlbum`
returns no album plus the single error tagged with the album path. -/
theorem C7_witness :
    fsLib.readdir "R/C" = Except.error "EACCES"
    ∧ processAlbum fsLib "R/C" "C"
        = (none, [{ file := "R/C", error := "EACCES" }]) :=
  ⟨by decide, C7_album_listing_failure fsLib "R/C" "C" "EACCES" (by decide)⟩

/-- C9: the resolved output file is `outputPath/music_metadata.json` when
`outputPath` is an existing directory or a non-existing path without a file
extension, and `outputPath` itself when it is an existing file or a
non-existing path with a file extension. -/
theorem C9_output_path_resolution (fs : FS) (outputPath : String)
    (st : FileStat) (e : String) :
    (fs.stat outputPath = Except.ok st → st.isDirectory = true →
      resolveOutputFile fs outputPath
        = pathJoin outputPath "music_metadata.json")
    ∧ (fs.stat outputPath = Except.ok st → st.isDirectory = false →
      resolveOutputFile fs outputPath = outputPath)
    ∧ (fs.stat outputPath = Except.error e → extname outputPath ≠ "" →
      resolveOutputFile fs outputPath = outputPath)
    ∧ (fs.stat outputPath = Except.error e → extname outputPath = "" →
      resolveOutputFile fs outputPath
        = pathJoin outputPath "music_metadata.json") := by
  unfold resolveOutputFile
  refine ⟨?_, ?_, ?_, ?_⟩ <;> intro h1 h2 <;> rw [h1] <;> simp [h2]

/-- Witness for C9: all four resolution cases at concrete paths. -/
theorem C9_witness :
    (fsOut.stat "outdir" = Except.ok { isDirectory := true }
      ∧ resolveOutputFile fsOut "outdir" = "outdir/music_metadata.json")
    ∧ (fsOut.stat "outfile" = Except.ok { isDirectory := false }
      ∧ resolveOutputFile fsOut "outfile" = "outfile")
    ∧ (fsOut.stat "out.json" = Except.error "ENOENT"
      ∧ extname "out.json" = ".json"
      ∧ resolveOutputFile fsOut "out.json" = "out.json")
    ∧ (fsOut.stat "outbase" = Except.error "ENOENT"
      ∧ extname "outbase" = ""
      ∧ resolveOutputFile fsOut "outbase" = "outbase/music_metadata.json") :=
  ⟨⟨by decide,
    (C9_output_path_resolution fsOut "outdir" { isDirectory := true }
      "ENOENT").1 (by decide) (by decide)⟩,
   ⟨by decide,
    (C9_output_path_resolution fsOut "outfile" { isDirectory := false }
      "ENOENT").2.1 (by decide) (by decide)⟩,
   ⟨by decide, by decide,
    (C9_output_path_resolution fsOut "out.json" { isDirectory := false }
      "ENOENT").2.2.1 (by decide) (by decide)⟩,
   ⟨by decide, by decide,
    (C9_output_path_resolution fsOut "outbase" { isDirectory := false }
      "ENOENT").2.2.2 (by decide) (by decide)⟩⟩

/-- C10: for a fixed filesystem listing, the scan output order is
deterministic and follows listing order at every level: artists are the
producing root entries in root listing order, each artist's albums are its
directory's producing sub-entries in listing order, and each album's tracks
are the successful probes of its filtered files in listing order (the model
is the submission-order linearisation of each batch; `Promise.all` returns
batch results in submission index order, so track order never depends on
probe completion order). -/
theorem C10_deterministic_order (fs : FS) (directory : String) (limit : Int)
    (entries : List DirEntry) (A : List Artist) (E : List ProcessingError)
    (hroot : fs.readdir directory = Except.ok entries)
    (h : scanDirectory fs directory limit = Except.ok (A, E)) :
    A = (if limit > 0 then entries.take limit.toNat else entries).filterMap
          (artistOf fs directory)
    ∧ (∀ artistPath albumDirs,
        (processAlbums fs artistPath albumDirs).1
          = albumDirs.filterMap (albumOf fs artistPath))
    ∧ (∀ p name entriesA a, fs.readdir p = Except.ok entriesA →
        (processAlbum fs p name).1 = some a →
        a.tracks = (entriesA.filter isSupportedFile).filterMap (trackOf fs p)) := by
  refine ⟨scanDirectory_ok_artists fs directory limit entries A E hroot h,
    ?_, ?_⟩
  · intro artistPath albumDirs
    exact processAlbums_albums fs artistPath albumDirs
  · intro p name entriesA a hre ha
    exact processAlbum_some_tracks_eq fs p name entriesA a hre ha

/-- Witness for C10: on the concrete library with limit 3, the artists are
exactly the producing directory entries of the truncated root listing, in
order. -/
theorem C10_witness :
    (fsLib.readdir "R" = Except.ok
       [⟨"notes.txt", EntryKind.file⟩, ⟨"A", EntryKind.directory⟩,
        ⟨"B", EntryKind.directory⟩, ⟨"C", EntryKind.directory⟩])
    ∧ (([{ artistName := "A",
           albums := [{ albumTitle := "Alb", genres := ["Rock", "Jazz"],
                        tracks := [{ title := "Song1" }] }] },
         { artistName := "B",
           albums := [{ albumTitle := "Alb2",
                        genres := ["Rock", "Jazz", "Blues"],
                        tracks := [{ title := "u.mp3" }, { title := "V" }] }] }]
          : List Artist)
        = ([⟨"notes.txt", EntryKind.file⟩, ⟨"A", EntryKind.directory⟩,
            ⟨"B", EntryKind.directory⟩] : List DirEntry).filterMap
            (artistOf fsLib "R")
       ∧ (∀ artistPath albumDirs,
           (processAlbums fsLib artistPath albumDirs).1
             = albumDirs.filterMap (albumOf fsLib artistPath))
       ∧ (∀ p name entriesA a, fsLib.readdir p = Except.ok entriesA →
           (processAlbum fsLib p name).1 = some a →
           a.tracks
             = (entriesA.filter isSupportedFile).filterMap (trackOf fsLib p))) :=
  ⟨by decide,
   C10_deterministic_order fsLib "R" 3
     [⟨"notes.txt", EntryKind.file⟩, ⟨"A", EntryKind.directory⟩,
      ⟨"B", EntryKind.directory⟩, ⟨"C", EntryKind.directory⟩]
     [{ artistName := "A",
        albums := [{ albumTitle := "Alb", genres := ["Rock", "Jazz"],
                     tracks := [{ title := "Song1" }] }] },
      { artistName := "B",
        albums := [{ albumTitle := "Alb2",
                     genres := ["Rock", "Jazz", "Blues"],
                     tracks := [{ title := "u.mp3" }, { title := "V" }] }] }]
     [{ file := "R/A/Alb/b.flac", error := "Invalid FLAC preamble" }]
     (by decide) (by decide)⟩

/-- Counterexample to C1 as stated: root `R` lists a plain file before three
artist directories.  With artistLimit 1 (0 < 1 < 3 artist directories) the
scan outputs no artist at all — the first artist directory `A` is never
considered, because the limit is applied to the raw entry list before
non-directory entries are discarded; raising the limit to 2 shows that `A`
does produce an artist when it is reached. -/
theorem C1_counterexample :
    scanDirectory fsLib "R" 1 = Except.ok ([], [])
    ∧ scanDirectory fsLib "R" 2 = Except.ok
        ([{ artistName := "A",
            albums := [{ albumTitle := "Alb", genres := ["Rock", "Jazz"],
                         tracks := [{ title := "Song1" }] }] }],
         [{ file := "R/A/Alb/b.flac", error := "Invalid FLAC preamble" }]) := by
  decide

/-- C1 (amended): with artistLimit M > 0, `scanDirectory` considers the first
M entries of the root listing in listing order — non-directory entries among
them are ignored but still count against the limit — so the output artist
count is at most M; an artistLimit of 0 or a negative value processes the
whole listing. -/
theorem C1_limit_enforcement (fs : FS) (directory : String) (limit : Int)
    (entries : List DirEntry) (A : List Artist) (E : List ProcessingError)
    (hroot : fs.readdir directory = Except.ok entries)
    (h : scanDirectory fs directory limit = Except.ok (A, E)) :
    A = (if limit > 0 then entries.take limit.toNat else entries).filterMap
          (artistOf fs directory)
    ∧ (limit > 0 → A.length ≤ limit.toNat) := by
  have hA := scanDirectory_ok_artists fs directory limit entries A E hroot h
  refine ⟨hA, ?_⟩
  intro hl
  rw [hA, if_pos hl]
  calc ((entries.take limit.toNat).filterMap (artistOf fs directory)).length
      ≤ (entries.take limit.toNat).length := List.length_filterMap_le _ _
    _ ≤ limit.toNat := by
        rw [List.length_take]
        exact Nat.min_le_left _ _

/-- Witness for C1 (amended) at the concrete library with limit 2: the
output artists are those of the first two root entries, and there are at
most 2 of them. -/
theorem C1_witness :
    (fsLib.readdir "R" = Except.ok
       [⟨"notes.txt", EntryKind.file⟩, ⟨"A", EntryKind.directory⟩,
        ⟨"B", EntryKind.directory⟩, ⟨"C", EntryKind.directory⟩])
    ∧ (([{ artistName := "A",
           albums := [{ albumTitle := "Alb", genres := ["Rock", "Jazz"],
                        tracks := [{ title := "Song1" }] }] }] : List Artist)
        = ([⟨"notes.txt", EntryKind.file⟩, ⟨"A", EntryKind.directory⟩]
            : List DirEntry).filterMap (artistOf fsLib "R")
       ∧ ((2 : Int) > 0 →
           ([{ artistName := "A",
               albums := [{ albumTitle := "Alb", genres := ["Rock", "Jazz"],
                            tracks := [{ title := "Song1" }] }] }]
             : List Artist).length ≤ (2 : Int).toNat)) :=
  ⟨by decide,
   C1_limit_enforcement fsLib "R" 2
     [⟨"notes.txt", EntryKind.file⟩, ⟨"A", EntryKind.directory⟩,
      ⟨"B", EntryKind.directory⟩, ⟨"C", EntryKind.directory⟩]
     [{ artistName := "A",
        albums := [{ albumTitle := "Alb", genres := ["Rock", "Jazz"],
                     tracks := [{ title := "Song1" }] }] }]
     [{ file := "R/A/Alb/b.flac", error := "Invalid FLAC preamble" }]
     (by decide) (by decide)⟩

/-- Counterexample to C2 as stated: in the concrete library the root entry
`C` is an artist directory whose listing fails with EACCES.  An unlimited
scan does not return normally with a recorded ProcessingError — it aborts
with the propagated exception, so the siblings' results (artists A and B)
are lost as well. -/
theorem C2_counterexample :
    fsLib.readdir "R/C" = Except.error "EACCES"
    ∧ scanDirectory fsLib "R" 0 = Except.error "EACCES"
    ∧ (scanDirectory fsLib "R" 0).isOk = false := by
  decide

/-- C2 (amended): a listing failure at an artist directory is not recorded
as a ProcessingError and does not let the scan of siblings continue:
provided every earlier processed directory entry lists successfully, the
exception propagates out of `scanDirectory`, aborting the whole scan with no
result at all. -/
theorem C2_artist_listing_failure_aborts (fs : FS) (directory : String)
    (limit : Int) (entries l1 l2 : List DirEntry) (d : DirEntry) (e : String)
    (hroot : fs.readdir directory = Except.ok entries)
    (hsplit : (if limit > 0 then entries.take limit.toNat else entries)
      = l1 ++ d :: l2)
    (hd : d.isDirectory = true)
    (he : fs.readdir (pathJoin directory d.name) = Except.error e)
    (hok : ∀ dd ∈ l1, dd.isDirectory = true →
      (fs.readdir (pathJoin directory dd.name)).isOk = true) :
    scanDirectory fs directory limit = Except.error e :=
  scanDirectory_abort fs directory limit entries l1 l2 d e hroot hsplit hd he hok

/-- Witness for C2 (amended): the EACCES failure at `R/C` — the last of the
four root entries, all earlier directory entries listing fine — aborts the
unlimited scan. -/
theorem C2_witness :
    fsLib.readdir "R/C" = Except.error "EACCES"
    ∧ (⟨"C", EntryKind.directory⟩ : DirEntry).isDirectory = true
    ∧ scanDirectory fsLib "R" 0 = Except.error "EACCES" :=
  ⟨by decide, by decide,
   C2_artist_listing_failure_aborts fsLib "R" 0
     [⟨"notes.txt", EntryKind.file⟩, ⟨"A", EntryKind.directory⟩,
      ⟨"B", EntryKind.directory⟩, ⟨"C", EntryKind.directory⟩]
     [⟨"notes.txt", EntryKind.file⟩, ⟨"A", EntryKind.directory⟩,
      ⟨"B", EntryKind.directory⟩]
     [] ⟨"C", EntryKind.directory⟩ "EACCES"
     (by decide) (by decide) (by decide) (by decide) (by decide)⟩

/-- Counterexample to C6 as stated: in the concrete library an unlimited
scan is interrupted by the EACCES failure at artist `C` after artists A and
B were accumulated (a scan stopping just before `C`, limit 3, returns them).
The top-level caller writes neither output nor error file and exits 1 — the
accumulated artists and errors are not written, and the non-zero exit is for
a mid-scan failure, not a pre-scan configuration failure. -/
theorem C6_counterexample :
    runScanAndSave fsLib "R" 0 "Out/music_metadata.json"
      = { writtenOutput := none, writtenErrors := none, exitCode := 1 }
    ∧ scanDirectory fsLib "R" 3 = Except.ok
        ([{ artistName := "A",
            albums := [{ albumTitle := "Alb", genres := ["Rock", "Jazz"],
                         tracks := [{ title := "Song1" }] }] },
          { artistName := "B",
            albums := [{ albumTitle := "Alb2",
                         genres := ["Rock", "Jazz", "Blues"],
                         tracks := [{ title := "u.mp3" }, { title := "V" }] }] }],
         [{ file := "R/A/Alb/b.flac", error := "Invalid FLAC preamble" }]) := by
  decide

/-- C6 (amended): when the scan is interrupted by a propagated error, the
top-level caller catches it, writes neither the output file nor the error
file (the accumulated artists and errors are discarded), and exits 1; the
files are written only when `scanDirectory` returns normally, in which case
the exit code is 0 even when processing errors were recorded. -/
theorem C6_fatal_error_discards_progress (fs : FS)
    (musicDirectory outputFile : String) (limit limit2 : Int)
    (entries l1 l2 : List DirEntry) (d : DirEntry) (e : String)
    (A : List Artist) (E : List ProcessingError) :
    ((fs.readdir musicDirectory = Except.ok entries) →
     ((if limit > 0 then entries.take limit.toNat else entries)
        = l1 ++ d :: l2) →
     d.isDirectory = true →
     fs.readdir (pathJoin musicDirectory d.name) = Except.error e →
     (∀ dd ∈ l1, dd.isDirectory = true →
       (fs.readdir (pathJoin musicDirectory dd.name)).isOk = true) →
     runScanAndSave fs musicDirectory limit outputFile
       = { writtenOutput := none, writtenErrors := none, exitCode := 1 })
    ∧ (scanDirectory fs musicDirectory limit2 = Except.ok (A, E) →
       runScanAndSave fs musicDirectory limit2 outputFile
         = { writtenOutput :=
               if A.length > 0 then some (outputFile, A) else none,
             writtenErrors :=
               if E.length > 0 then
                 some (pathJoin (dirnameOf outputFile)
                   "music_metadata_errors.json", E)
               else none,
             exitCode := 0 }) := by
  constructor
  · intro h1 h2 h3 h4 h5
    unfold runScanAndSave
    rw [scanDirectory_abort fs musicDirectory limit entries l1 l2 d e
      h1 h2 h3 h4 h5]
  · intro hok
    unfold runScanAndSave
    rw [hok]

/-- Witness for C6 (amended): the interrupted unlimited run writes nothing
and exits 1; the run limited to the healthy prefix writes both files and
exits 0. -/
theorem C6_witness :
    runScanAndSave fsLib "R" 0 "Out/music_metadata.json"
      = { writtenOutput := none, writtenErrors := none, exitCode := 1 }
    ∧ runScanAndSave fsLib "R" 3 "Out/music_metadata.json"
      = { writtenOutput := some ("Out/music_metadata.json",
            [{ artistName := "A",
               albums := [{ albumTitle := "Alb", genres := ["Rock", "Jazz"],
                            tracks := [{ title := "Song1" }] }] },
             { artistName := "B",
               albums := [{ albumTitle := "Alb2",
                            genres := ["Rock", "Jazz", "Blues"],
                            tracks := [{ title := "u.mp3" },
                                       { title := "V" }] }] }]),
          writtenErrors := some ("Out/music_metadata_errors.json",
            [{ file := "R/A/Alb/b.flac",
               error := "Invalid FLAC preamble" }]),
          exitCode := 0 } :=
  ⟨(C6_fatal_error_discards_progress fsLib "R" "Out/music_metadata.json" 0 3
      [⟨"notes.txt", EntryKind.file⟩, ⟨"A", EntryKind.directory⟩,
       ⟨"B", EntryKind.directory⟩, ⟨"C", EntryKind.directory⟩]
      [⟨"notes.txt", EntryKind.file⟩, ⟨"A", EntryKind.directory⟩,
       ⟨"B", EntryKind.directory⟩]
      [] ⟨"C", EntryKind.directory⟩ "EACCES"
      [{ artistName := "A",
         albums := [{ albumTitle := "Alb", genres := ["Rock", "Jazz"],
                      tracks := [{ title := "Song1" }] }] },
       { artistName := "B",
         albums := [{ albumTitle := "Alb2",
                      genres := ["Rock", "Jazz", "Blues"],
                      tracks := [{ title := "u.mp3" }, { title := "V" }] }]}]
      [{ file := "R/A/Alb/b.flac", error := "Invalid FLAC preamble" }]).1
     (by decide) (by decide) (by decide) (by decide) (by decide),
   (C6_fatal_error_discards_progress fsLib "R" "Out/music_metadata.json" 0 3
      [⟨"notes.txt", EntryKind.file⟩, ⟨"A", EntryKind.directory⟩,
       ⟨"B", EntryKind.directory⟩, ⟨"C", EntryKind.directory⟩]
      [⟨"notes.txt", EntryKind.file⟩, ⟨"A", EntryKind.directory⟩,
       ⟨"B", EntryKind.directory⟩]
      [] ⟨"C", EntryKind.directory⟩ "EACCES"
      [{ artistName := "A",
         albums := [{ albumTitle := "Alb", genres := ["Rock", "Jazz"],
                      tracks := [{ title := "Song1" }] }] },
       { artistName := "B",
         albums := [{ albumTitle := "Alb2",
                      genres := ["Rock", "Jazz", "Blues"],
                      tracks := [{ title := "u.mp3" }, { title := "V" }] }]}]
      [{ file := "R/A/Alb/b.flac", error := "Invalid FLAC preamble" }]).2
     (by decide)⟩

/-- Counterexample to C8 as stated: the file `Alb/w.mp3` probes successfully
with an embedded title that is present but equal to the empty string; the
resulting Track's title is the file's base name `"w.mp3"`, not the embedded
title `""` (JS `common.title || trackFile.name` treats `""` as absent). -/
theorem C8_counterexample :
    fsEmptyTitle.probe "Alb/w.mp3"
      = Except.ok { title := some "", genre := none }
    ∧ processAlbum fsEmptyTitle "Alb" "Alb"
        = (some { albumTitle := "Alb", genres := [],
                  tracks := [{ title := "w.mp3" }] }, [])
    ∧ ("w.mp3" : String) ≠ "" := by
  decide

/-- C8 (amended): a successfully probed supported file contributes to the
returned album a Track whose title is the embedded title when that title is
present and non-empty, and the file's base name (its directory-entry name)
when the title is absent or empty. -/
theorem C8_fallback_title (fs : FS) (p name : String)
    (entries : List DirEntry) (a : Album) (tf : DirEntry) (r : ProbeResult)
    (h : fs.readdir p = Except.ok entries)
    (ha : (processAlbum fs p name).1 = some a)
    (htf : tf ∈ entries.filter isSupportedFile)
    (hr : fs.probe (pathJoin p tf.name) = Except.ok r) :
    ({ title := match r.title with
                | some t => if t = "" then tf.name else t
                | none => tf.name } : Track) ∈ a.tracks := by
  rw [processAlbum_some_tracks_eq fs p name entries a h ha]
  apply List.mem_filterMap.mpr
  refine ⟨tf, htf, ?_⟩
  unfold trackOf
  rw [hr]
  rfl

/-- Witness for C8 (amended): `u.mp3` probes with no embedded title and its
track title is the file name, while `v.mp3` probes with non-empty title
`"V"` and keeps it. -/
theorem C8_witness :
    fsLib.probe "R/B/Alb2/u.mp3"
      = Except.ok { title := none, genre := some ["Rock", "Jazz"] }
    ∧ ({ title := "u.mp3" } : Track) ∈
        ({ albumTitle := "Alb2", genres := ["Rock", "Jazz", "Blues"],
           tracks := [{ title := "u.mp3" }, { title := "V" }] } : Album).tracks
    ∧ ({ title := "V" } : Track) ∈
        ({ albumTitle := "Alb2", genres := ["Rock", "Jazz", "Blues"],
           tracks := [{ title := "u.mp3" }, { title := "V" }] } : Album).tracks :=
  ⟨by decide,
   C8_fallback_title fsLib "R/B/Alb2" "Alb2"
     [⟨"u.mp3", EntryKind.file⟩, ⟨"v.mp3", EntryKind.file⟩]
     { albumTitle := "Alb2", genres := ["Rock", "Jazz", "Blues"],
       tracks := [{ title := "u.mp3" }, { title := "V" }] }
     ⟨"u.mp3", EntryKind.file⟩ { title := none, genre := some ["Rock", "Jazz"] }
     (by decide) (by decide) (by decide) (by decide),
   C8_fallback_title fsLib "R/B/Alb2" "Alb2"
     [⟨"u.mp3", EntryKind.file⟩, ⟨"v.mp3", EntryKind.file⟩]
     { albumTitle := "Alb2", genres := ["Rock", "Jazz", "Blues"],
       tracks := [{ title := "u.mp3" }, { title := "V" }] }
     ⟨"v.mp3", EntryKind.file⟩
     { title := some "V", genre := some ["Jazz", "Blues"] }
     (by decide) (by decide) (by decide) (by decide)⟩
